import Mathlib

/-!
Shallow embedding of `src/replication-service/app.py`, a CDC relay that
consumes a PostgreSQL logical-replication stream and republishes each
row-level change to a Kinesis stream.

External library calls (`json.loads`, `kinesis_client.put_record`,
`cur.start_replication`, `cur.create_replication_slot`,
`cur.consume_stream`) are modelled as explicit function parameters or
record fields returning `Except`-classified outcomes; the control flow
around them is translated line by line from the source.
-/

namespace Pg2Kinesis

/-- Python JSON values, as produced by `json.loads`. -/
inductive Json where
  | null : Json
  | bool (b : Bool) : Json
  | num (n : Int) : Json
  | str (s : String) : Json
  | arr (elems : List Json) : Json
  | obj (fields : List (String × Json)) : Json
deriving Repr

/-- Serialization of a JSON value, modelling `json.dumps` (default options). -/
def Json.dumps : Json → String
  | .null => "null"
  | .bool true => "true"
  | .bool false => "false"
  | .num n => toString n
  | .str s => "\"" ++ s ++ "\""
  | .arr xs =>
      "[" ++ String.intercalate ", " (xs.attach.map (fun x => Json.dumps x.1)) ++ "]"
  | .obj fs =>
      "\x7b" ++
        String.intercalate ", "
          (fs.attach.map (fun f => "\"" ++ f.1.1 ++ "\": " ++ Json.dumps f.1.2)) ++
      "\x7d"
decreasing_by
  · have h := List.sizeOf_lt_of_mem x.2
    simp only [Json.arr.sizeOf_spec]
    omega
  · have h := List.sizeOf_lt_of_mem f.2
    obtain ⟨⟨k, v⟩, hf⟩ := f
    simp only [Prod.mk.sizeOf_spec] at h
    simp only [Json.obj.sizeOf_spec]
    omega

/-- Python exceptions that can arise in this program; every one of them
derives from `BaseException` in Python 3. -/
inductive PyError where
  | jsonDecodeError (detail : String) : PyError
  | keyError (key : String) : PyError
  | typeError (detail : String) : PyError
  | clientError (detail : String) : PyError
  | programmingError (detail : String) : PyError
  | duplicateObject (detail : String) : PyError
  | otherError (detail : String) : PyError
deriving Repr, DecidableEq

/-- Whether an exception matches the clause `except BaseException`.
In Python 3 every raisable exception derives from `BaseException`. -/
def matchesBaseException : PyError → Bool
  | .jsonDecodeError _ => true
  | .keyError _ => true
  | .typeError _ => true
  | .clientError _ => true
  | .programmingError _ => true
  | .duplicateObject _ => true
  | .otherError _ => true

/-- Whether an exception matches `except botocore.exceptions.ClientError`. -/
def isClientError : PyError → Bool
  | .clientError _ => true
  | _ => false

/-- Whether an exception matches `except psycopg2.ProgrammingError`
(`DuplicateObject`, raised when a replication slot already exists, is a
subclass of `ProgrammingError`). -/
def matchesProgrammingError : PyError → Bool
  | .programmingError _ => true
  | .duplicateObject _ => true
  | _ => false

/-- Model of Python `str(error)` for logging. -/
def errDetail : PyError → String
  | .jsonDecodeError d => d
  | .keyError k => k
  | .typeError d => d
  | .clientError d => d
  | .programmingError d => d
  | .duplicateObject d => d
  | .otherError d => d

/-- The two handler clauses of the outer `try` in
`ReplicationConsumer.__call__`: `except BaseException as error:` (which logs
and re-raises) followed by a bare `except:` (which logs and swallows). -/
inductive HandlerBranch where
  | baseExceptionH : HandlerBranch
  | bareExceptH : HandlerBranch
deriving Repr, DecidableEq

/-- Python handler dispatch for the outer `try`: clauses are tried in
source order, so the bare `except:` is reached only if the exception does
not match `BaseException`. -/
def outerHandlerFor (e : PyError) : HandlerBranch :=
  if matchesBaseException e then .baseExceptionH else .bareExceptH

/-- One invocation of `kinesis_client.put_record` with its keyword
arguments (`StreamName`, `Data`, `PartitionKey`). -/
structure PutRecordCall where
  streamName : String
  data : String
  partitionKey : String
deriving Repr, DecidableEq

/-- Call sites of the logger in the source, used to tag emitted events. -/
inductive LogSite where
  | sentOk : LogSite
  | recordError : LogSite
  | batchFailure : LogSite
  | bareBatchFailure : LogSite
  | startStreaming : LogSite
  | slotRemediation : LogSite
deriving Repr, DecidableEq

/-- One structured log event: which call site emitted it and its detail. -/
structure LogEvent where
  site : LogSite
  detail : String
deriving Repr, DecidableEq

/-- A replication message delivered by `consume_stream`: its text payload
and the LSN marking the start of the batch (`msg.data_start`). -/
structure Msg where
  payload : String
  data_start : Nat
deriving Repr, DecidableEq

/-- Python subscription `j["change"]`: dict lookup (last binding wins, as
duplicate keys in JSON source overwrite), `KeyError` when the key is
missing, `TypeError` when the value is not a dict. -/
def pySubscript (j : Json) (key : String) : Except PyError Json :=
  match j with
  | .obj fs =>
      match (fs.filterMap (fun f => if f.1 = key then some f.2 else none)).getLast? with
      | some v => .ok v
      | none => .error (.keyError key)
  | _ => .error (.typeError "object is not subscriptable")

/-- Python iteration over a JSON value (`for ... in v`): lists yield their
elements, dicts their keys, strings their characters; other values raise
`TypeError`. -/
def pyIterate : Json → Except PyError (List Json)
  | .arr xs => .ok xs
  | .obj fs => .ok (fs.map (fun f => Json.str f.1))
  | .str s => .ok (s.data.map (fun c => Json.str (String.mk [c])))
  | _ => .error (.typeError "object is not iterable")

/-- The decode step of the batch handler:
`json.loads(msg.payload)["change"]` made iterable, where `loads` is the
external `json.loads` (a parameter of the embedding). -/
def decodeChanges (loads : String → Except PyError Json) (payload : String) :
    Except PyError (List Json) := do
  let j ← loads payload
  let v ← pySubscript j "change"
  pyIterate v

/-- The per-record loop of `ReplicationConsumer.__call__`
(lines 37-48): for each `(idx, change)` pair, call `put_record` once with
the fixed partition key `"default"`; a `ClientError` is caught and logged,
any other exception escapes the inner `try` and aborts the loop.
Returns the `put_record` calls made, the log events, and the escaping
exception if any. -/
def forwardLoop (publish : PutRecordCall → Except PyError String)
    (streamName : String) :
    List (Nat × Json) → List PutRecordCall × List LogEvent × Option PyError
  | [] => ([], [], none)
  | (_idx, change) :: rest =>
      let call : PutRecordCall :=
        { streamName := streamName, data := Json.dumps change, partitionKey := "default" }
      match publish call with
      | .ok _ =>
          let r := forwardLoop publish streamName rest
          (call :: r.1, ⟨.sentOk, Json.dumps change⟩ :: r.2.1, r.2.2)
      | .error e =>
          if isClientError e then
            let r := forwardLoop publish streamName rest
            (call :: r.1, ⟨.recordError, errDetail e⟩ :: r.2.1, r.2.2)
          else
            ([call], [], some e)

/-- Observable outcome of one `ReplicationConsumer.__call__` invocation:
the `put_record` calls made, the log events emitted, the flush LSN sent via
`send_feedback` (if reached), and the exception propagating out (if any). -/
structure CallTrace where
  calls : List PutRecordCall
  logs : List LogEvent
  feedback : Option Nat
  raised : Option PyError
deriving Repr, DecidableEq

/-- `ReplicationConsumer.__call__` (lines 35-61): decode the payload,
forward each change, dispatch any escaping exception to the outer handler
clauses (`except BaseException` logs and re-raises; the bare `except:`
logs and falls through), then `send_feedback(flush_lsn=msg.data_start)`
when control reaches line 61. -/
def consumerCall (loads : String → Except PyError Json)
    (publish : PutRecordCall → Except PyError String)
    (streamName : String) (msg : Msg) : CallTrace :=
  match decodeChanges loads msg.payload with
  | .error e =>
      match outerHandlerFor e with
      | .baseExceptionH =>
          { calls := [], logs := [⟨.batchFailure, errDetail e⟩],
            feedback := none, raised := some e }
      | .bareExceptH =>
          { calls := [], logs := [⟨.bareBatchFailure, errDetail e⟩],
            feedback := some msg.data_start, raised := none }
  | .ok items =>
      match forwardLoop publish streamName items.enum with
      | (calls, logs, some e) =>
          match outerHandlerFor e with
          | .baseExceptionH =>
              { calls := calls, logs := logs ++ [⟨.batchFailure, errDetail e⟩],
                feedback := none, raised := some e }
          | .bareExceptH =>
              { calls := calls, logs := logs ++ [⟨.bareBatchFailure, errDetail e⟩],
                feedback := some msg.data_start, raised := none }
      | (calls, logs, none) =>
          { calls := calls, logs := logs,
            feedback := some msg.data_start, raised := none }

/-- The stream of acknowledgements over a sequence of delivered batches:
`consume_stream` invokes the consumer once per message and stops when the
consumer raises; each `send_feedback` acknowledges one flush LSN. -/
def relayAcks (loads : String → Except PyError Json)
    (publish : PutRecordCall → Except PyError String)
    (streamName : String) : List Msg → List Nat
  | [] => []
  | m :: rest =>
      match (consumerCall loads publish streamName m).raised with
      | some _ => (consumerCall loads publish streamName m).feedback.toList
      | none =>
          (consumerCall loads publish streamName m).feedback.toList ++
            relayAcks loads publish streamName rest

/-- One call made against the replication cursor, with its arguments as
written in the source. -/
inductive SessionCall where
  | startReplication (slot : String) : SessionCall
  | createReplicationSlot (slot : String) (outputPlugin : String) : SessionCall
  | consumeStream : SessionCall
deriving Repr, DecidableEq

/-- Outcomes of the external psycopg2 calls, parameters of the embedding:
`startSlot s` is `cur.start_replication(slot_name=s, ...)`, `createSlot s`
is `cur.create_replication_slot(s, output_plugin="wal2json")`, and
`consume` is `cur.consume_stream(replication_consumer)` (`.ok` when it
returns, `.error e` when an exception propagates out of it). -/
structure SessionOps where
  startSlot : String → Except PyError Unit
  createSlot : String → Except PyError Unit
  consume : Except PyError Unit

/-- Observable outcome of the module-level code (lines 66-87): the cursor
calls made in order, the log events, whether `cur.close()`/`conn.close()`
ran, and the process exit code. -/
structure MainResult where
  sessionCalls : List SessionCall
  logs : List LogEvent
  cursorClosed : Bool
  connClosed : Bool
  exitCode : Nat
deriving Repr, DecidableEq

/-- The remediation text of the warning at lines 86-87, naming the slot
and the exact drop command. -/
def remediationMsg (slot : String) : String :=
  "The slot \x27" ++ slot ++ "\x27 still exists. Drop it with " ++
    "SELECT pg_drop_replication_slot(\x27" ++ slot ++ "\x27); if no longer needed."

/-- The teardown path of the module-level bare `except:` (lines 80-87):
close cursor and connection, log the remediation warning, and fall off the
end of the module, so the interpreter exits with status 0. -/
def teardownResult (slotName : String) (callsSoFar : List SessionCall) : MainResult :=
  { sessionCalls := callsSoFar,
    logs := [⟨.startStreaming, "Starting streaming"⟩,
             ⟨.slotRemediation, remediationMsg slotName⟩],
    cursorClosed := true, connClosed := true, exitCode := 0 }

/-- The module-level flow (lines 66-87): log "Starting streaming", then
inside the outer `try`: `start_replication(slot_name="wal2json")`; on
`psycopg2.ProgrammingError`, `create_replication_slot(slotName)` then
`start_replication(slot_name=slotName)`; then `consume_stream`.  Any
exception escaping the outer `try` (including a non-`ProgrammingError`
from the first start, or any error from the create or the retried start)
runs the teardown handler; in every case the module ends normally, so the
exit code is 0. -/
def runMain (slotName : String) (ops : SessionOps) : MainResult :=
  let consumePhase : List SessionCall → MainResult := fun calls =>
    match ops.consume with
    | .ok _ =>
        { sessionCalls := calls ++ [.consumeStream],
          logs := [⟨.startStreaming, "Starting streaming"⟩],
          cursorClosed := false, connClosed := false, exitCode := 0 }
    | .error _ => teardownResult slotName (calls ++ [.consumeStream])
  match ops.startSlot "wal2json" with
  | .ok _ => consumePhase [.startReplication "wal2json"]
  | .error e =>
      if matchesProgrammingError e then
        match ops.createSlot slotName with
        | .ok _ =>
            match ops.startSlot slotName with
            | .ok _ =>
                consumePhase
                  [.startReplication "wal2json",
                   .createReplicationSlot slotName "wal2json",
                   .startReplication slotName]
            | .error _ =>
                teardownResult slotName
                  [.startReplication "wal2json",
                   .createReplicationSlot slotName "wal2json",
                   .startReplication slotName]
        | .error _ =>
            teardownResult slotName
              [.startReplication "wal2json",
               .createReplicationSlot slotName "wal2json"]
      else
        teardownResult slotName [.startReplication "wal2json"]

/-- A publish outcome within the classified set of the code: success, or a
`botocore` `ClientError` (the only per-record failure class the inner
handler recognises). -/
def classified : Except PyError String → Bool
  | .ok _ => true
  | .error e => isClientError e

/-! Concrete fixtures used by witnesses and counterexamples. -/

/-- A `json.loads` that always fails, as on a malformed payload. -/
def loadsMalformed : String → Except PyError Json :=
  fun _ => .error (.jsonDecodeError "Expecting value")

/-- A `json.loads` returning a payload with one change entry. -/
def loadsOneChange : String → Except PyError Json :=
  fun _ => .ok (.obj [("change",
    .arr [.obj [("kind", .str "insert"), ("table", .str "users")]])])

/-- A `json.loads` returning a payload with two change entries. -/
def loadsTwoChanges : String → Except PyError Json :=
  fun _ => .ok (.obj [("change",
    .arr [.obj [("kind", .str "insert")], .obj [("kind", .str "delete")]])])

/-- A `json.loads` returning a payload whose change list is empty. -/
def loadsEmptyChange : String → Except PyError Json :=
  fun _ => .ok (.obj [("change", .arr [])])

/-- A `put_record` that always succeeds. -/
def publishAlwaysOk : PutRecordCall → Except PyError String :=
  fun _ => .ok "49590338271490256608559692538361571095921575989136588898"

/-- A `put_record` that always raises a throttling `ClientError`
(a transient transport failure). -/
def publishAlwaysThrottled : PutRecordCall → Except PyError String :=
  fun _ => .error (.clientError "ProvisionedThroughputExceededException")

/-- Session outcomes where streaming starts but `consume_stream` raises a
fatal connection-loss error. -/
def opsFatalConsume : SessionOps :=
  { startSlot := fun _ => .ok (),
    createSlot := fun _ => .ok (),
    consume := .error (.otherError "server closed the connection unexpectedly") }

/-- Session outcomes where the first start raises `ProgrammingError` and
the slot creation then fails with `DuplicateObject` (slot already exists,
e.g. created by a racing instance). -/
def opsSlotRace : SessionOps :=
  { startSlot := fun _ => .error (.programmingError "replication slot does not exist"),
    createSlot := fun _ => .error (.duplicateObject "replication slot already exists"),
    consume := .ok () }

/-! Helper lemmas shared by the claim theorems. -/

/-- Every exception matches the `except BaseException` clause, so handler
dispatch always selects the first handler. -/
theorem outerHandler_base (e : PyError) : outerHandlerFor e = .baseExceptionH := by
  cases e <;> rfl

/-- When every publish outcome is classified (success or `ClientError`),
the per-record loop never raises, makes one call per record, and logs one
event per record. -/
theorem forwardLoop_classified (publish : PutRecordCall → Except PyError String)
    (s : String) (l : List (Nat × Json))
    (hp : ∀ c, classified (publish c) = true) :
    (forwardLoop publish s l).2.2 = none ∧
    (forwardLoop publish s l).1.length = l.length ∧
    (forwardLoop publish s l).2.1.length = l.length := by
  induction l with
  | nil => simp [forwardLoop]
  | cons p tl ih =>
      obtain ⟨i, c⟩ := p
      have hc := hp { streamName := s, data := Json.dumps c, partitionKey := "default" }
      cases hpub : publish { streamName := s, data := Json.dumps c, partitionKey := "default" } with
      | ok v => simp [forwardLoop, hpub, ih]
      | error e =>
          rw [hpub] at hc
          simp only [classified] at hc
          simp [forwardLoop, hpub, hc, ih]

/-- When every publish outcome is classified, the calls made are exactly
one `put_record` per entry, in order, with the fixed arguments. -/
theorem forwardLoop_calls (publish : PutRecordCall → Except PyError String)
    (s : String) (l : List (Nat × Json))
    (hp : ∀ c, classified (publish c) = true) :
    (forwardLoop publish s l).1 =
      l.map (fun p =>
        { streamName := s, data := Json.dumps p.2, partitionKey := "default" }) := by
  induction l with
  | nil => simp [forwardLoop]
  | cons p tl ih =>
      obtain ⟨i, c⟩ := p
      have hc := hp { streamName := s, data := Json.dumps c, partitionKey := "default" }
      cases hpub : publish { streamName := s, data := Json.dumps c, partitionKey := "default" } with
      | ok v => simp [forwardLoop, hpub, ih]
      | error e =>
          rw [hpub] at hc
          simp only [classified] at hc
          simp [forwardLoop, hpub, hc, ih]

/-- When every publish outcome is a `ClientError`, the loop still never
raises, makes exactly one call per record, and logs exactly one
record-failure warning per record. -/
theorem forwardLoop_allClientError (publish : PutRecordCall → Except PyError String)
    (s : String) (l : List (Nat × Json))
    (hp : ∀ c, ∃ d, publish c = .error (.clientError d)) :
    (forwardLoop publish s l).2.2 = none ∧
    (forwardLoop publish s l).1.length = l.length ∧
    (forwardLoop publish s l).2.1.length = l.length ∧
    ((forwardLoop publish s l).2.1.all (fun ev => ev.site == .recordError)) = true := by
  induction l with
  | nil => simp [forwardLoop]
  | cons p tl ih =>
      obtain ⟨i, c⟩ := p
      obtain ⟨d, hpub⟩ := hp { streamName := s, data := Json.dumps c, partitionKey := "default" }
      simp [forwardLoop, hpub, isClientError, ih]

/-- Every call the per-record loop makes carries partition key "default". -/
theorem forwardLoop_keys (publish : PutRecordCall → Except PyError String)
    (s : String) (l : List (Nat × Json)) :
    ((forwardLoop publish s l).1.all (fun c => c.partitionKey == "default")) = true := by
  induction l with
  | nil => rfl
  | cons p tl ih =>
      obtain ⟨i, c⟩ := p
      cases hpub : publish { streamName := s, data := Json.dumps c, partitionKey := "default" } with
      | ok v => simp [forwardLoop, hpub, ih]
      | error e =>
          by_cases hce : isClientError e
          · simp [forwardLoop, hpub, hce, ih]
          · simp [forwardLoop, hpub, hce]

/-- The per-record loop only logs success or record-failure events. -/
theorem forwardLoop_sites (publish : PutRecordCall → Except PyError String)
    (s : String) (l : List (Nat × Json)) :
    ((forwardLoop publish s l).2.1.all
      (fun ev => ev.site == .sentOk || ev.site == .recordError)) = true := by
  induction l with
  | nil => rfl
  | cons p tl ih =>
      obtain ⟨i, c⟩ := p
      cases hpub : publish { streamName := s, data := Json.dumps c, partitionKey := "default" } with
      | ok v => simp [forwardLoop, hpub, ih]
      | error e =>
          by_cases hce : isClientError e
          · simp [forwardLoop, hpub, hce, ih]
          · simp [forwardLoop, hpub, hce]

/-- The feedback of one consumer call is either absent or exactly the
batch's start LSN. -/
theorem consumerCall_feedback_cases (loads : String → Except PyError Json)
    (publish : PutRecordCall → Except PyError String) (s : String) (msg : Msg) :
    (consumerCall loads publish s msg).feedback = none ∨
    (consumerCall loads publish s msg).feedback = some msg.data_start := by
  cases hd : decodeChanges loads msg.payload with
  | error e => simp [consumerCall, hd, outerHandler_base]
  | ok items =>
      rcases hfl : forwardLoop publish s items.enum with ⟨calls, logs, r⟩
      cases r with
      | none => simp [consumerCall, hd, hfl]
      | some e => simp [consumerCall, hd, hfl, outerHandler_base]

/-- A consumer call that re-raises never reached `send_feedback`. -/
theorem consumerCall_raised_no_feedback (loads : String → Except PyError Json)
    (publish : PutRecordCall → Except PyError String) (s : String) (msg : Msg)
    (e : PyError) (h : (consumerCall loads publish s msg).raised = some e) :
    (consumerCall loads publish s msg).feedback = none := by
  cases hd : decodeChanges loads msg.payload with
  | error e2 => simp [consumerCall, hd, outerHandler_base]
  | ok items =>
      rcases hfl : forwardLoop publish s items.enum with ⟨calls, logs, r⟩
      cases r with
      | none => simp [consumerCall, hd, hfl] at h
      | some e2 => simp [consumerCall, hd, hfl, outerHandler_base]

/-- The acknowledged positions are a sublist of the delivered batches'
start positions, in delivery order. -/
theorem relayAcks_sublist (loads : String → Except PyError Json)
    (publish : PutRecordCall → Except PyError String) (s : String)
    (msgs : List Msg) :
    List.Sublist (relayAcks loads publish s msgs) (msgs.map Msg.data_start) := by
  induction msgs with
  | nil => simp [relayAcks]
  | cons m rest ih =>
      simp only [relayAcks, List.map_cons]
      cases hr : (consumerCall loads publish s m).raised with
      | some e =>
          rw [consumerCall_raised_no_feedback loads publish s m e hr]
          exact List.nil_sublist _
      | none =>
          rcases consumerCall_feedback_cases loads publish s m with hf | hf
          · rw [hf]
            exact List.Sublist.cons _ ih
          · rw [hf]
            exact List.Sublist.cons₂ _ ih

/-! Claim theorems. -/

/-- C1 (counterexample): on a malformed payload the decode fails, but the
batch is NOT acknowledged — `send_feedback` is never reached because the
`except BaseException` handler re-raises, so the checkpoint does not
advance to the batch's start position (5). -/
theorem C1_counterexample :
    decodeChanges loadsMalformed "not json" =
      .error (.jsonDecodeError "Expecting value") ∧
    ¬ (consumerCall loadsMalformed publishAlwaysOk "repl"
        { payload := "not json", data_start := 5 }).feedback = some 5 :=
  ⟨rfl, by decide⟩

/-- C1 (amended): for every batch whose payload fails to decode, the
failure is caught by the `except BaseException` handler, logged as a batch
forwarding failure, and re-raised: no record is published, no feedback is
sent (the checkpoint does not advance), and the exception propagates out
of the consumer. -/
theorem C1_decode_failure_logged_not_acked (loads : String → Except PyError Json)
    (publish : PutRecordCall → Except PyError String) (s : String) (msg : Msg)
    (e : PyError) (h : decodeChanges loads msg.payload = .error e) :
    (consumerCall loads publish s msg).calls = [] ∧
    (consumerCall loads publish s msg).logs = [⟨.batchFailure, errDetail e⟩] ∧
    (consumerCall loads publish s msg).feedback = none ∧
    (consumerCall loads publish s msg).raised = some e := by
  simp [consumerCall, h, outerHandler_base]

/-- C1 witness: the amended statement instantiated on a malformed payload. -/
theorem C1_witness :
    (consumerCall loadsMalformed publishAlwaysOk "repl"
      { payload := "x", data_start := 9 }).feedback = none ∧
    (consumerCall loadsMalformed publishAlwaysOk "repl"
      { payload := "x", data_start := 9 }).raised =
        some (.jsonDecodeError "Expecting value") := by
  have h := C1_decode_failure_logged_not_acked loadsMalformed publishAlwaysOk "repl"
    { payload := "x", data_start := 9 } (.jsonDecodeError "Expecting value") rfl
  exact ⟨h.2.2.1, h.2.2.2⟩

/-- C2: when the batch decodes and every publish outcome is classified
(success or `ClientError`), no per-record failure escapes the batch:
the consumer raises nothing, every record is attempted (the loop continues
past failures), one event is logged per record, and the batch is
acknowledged at its start position. -/
theorem C2_record_failures_isolated (loads : String → Except PyError Json)
    (publish : PutRecordCall → Except PyError String) (s : String) (msg : Msg)
    (items : List Json) (hd : decodeChanges loads msg.payload = .ok items)
    (hp : ∀ c, classified (publish c) = true) :
    (consumerCall loads publish s msg).raised = none ∧
    (consumerCall loads publish s msg).feedback = some msg.data_start ∧
    (consumerCall loads publish s msg).calls.length = items.length ∧
    (consumerCall loads publish s msg).logs.length = items.length := by
  have hf := forwardLoop_classified publish s items.enum hp
  rcases hfl : forwardLoop publish s items.enum with ⟨calls2, logs2, r⟩
  rw [hfl] at hf
  simp only at hf
  obtain ⟨hr, hc, hl⟩ := hf
  subst hr
  simp [consumerCall, hd, hfl, hc, hl, List.enum_length]

/-- C2 witness: a one-record batch whose publish raises a `ClientError`
still completes and is acknowledged. -/
theorem C2_witness :
    (consumerCall loadsOneChange publishAlwaysThrottled "repl"
      { payload := "p", data_start := 3 }).raised = none ∧
    (consumerCall loadsOneChange publishAlwaysThrottled "repl"
      { payload := "p", data_start := 3 }).feedback = some 3 := by
  have h := C2_record_failures_isolated loadsOneChange publishAlwaysThrottled "repl"
    { payload := "p", data_start := 3 }
    [Json.obj [("kind", .str "insert"), ("table", .str "users")]]
    rfl (fun _ => rfl)
  exact ⟨h.1, h.2.1⟩

/-- C3: every batch that decodes successfully (even one with zero change
entries) is acknowledged by sending feedback at exactly the batch's start
position, whatever the classified per-record outcomes were. -/
theorem C3_ack_unconditional (loads : String → Except PyError Json)
    (publish : PutRecordCall → Except PyError String) (s : String) (msg : Msg)
    (items : List Json) (hd : decodeChanges loads msg.payload = .ok items)
    (hp : ∀ c, classified (publish c) = true) :
    (consumerCall loads publish s msg).feedback = some msg.data_start := by
  have hf := forwardLoop_classified publish s items.enum hp
  rcases hfl : forwardLoop publish s items.enum with ⟨calls2, logs2, r⟩
  rw [hfl] at hf
  simp only at hf
  obtain ⟨hr, hc, hl⟩ := hf
  subst hr
  simp [consumerCall, hd, hfl]

/-- C3 witness: a batch with an empty change list, under a publisher that
would fail every record, is still acknowledged. -/
theorem C3_witness :
    (consumerCall loadsEmptyChange publishAlwaysThrottled "repl"
      { payload := "p", data_start := 11 }).feedback = some 11 :=
  C3_ack_unconditional loadsEmptyChange publishAlwaysThrottled "repl"
    { payload := "p", data_start := 11 } [] rfl (fun _ => rfl)

/-- C4: a well-formed payload whose change list has N entries decodes to
exactly those N records in encounter order, the enumeration assigns
ordinal indices 0..N-1, and (under classified outcomes) the publisher is
invoked exactly once per record, in that order, on the serialized
record. -/
theorem C4_decode_order_single_publish (loads : String → Except PyError Json)
    (publish : PutRecordCall → Except PyError String) (s : String) (msg : Msg)
    (j : Json) (xs : List Json)
    (hl : loads msg.payload = .ok j)
    (hs : pySubscript j "change" = .ok (.arr xs))
    (hp : ∀ c, classified (publish c) = true) :
    decodeChanges loads msg.payload = .ok xs ∧
    xs.enum.map Prod.fst = List.range xs.length ∧
    (consumerCall loads publish s msg).calls =
      xs.map (fun c =>
        { streamName := s, data := Json.dumps c, partitionKey := "default" }) := by
  have hdec : decodeChanges loads msg.payload = .ok xs := by
    simp [decodeChanges, hl, hs, pyIterate, bind, Except.bind]
  refine ⟨hdec, List.enum_map_fst xs, ?_⟩
  have hcalls := forwardLoop_calls publish s xs.enum hp
  have hf := forwardLoop_classified publish s xs.enum hp
  rcases hfl : forwardLoop publish s xs.enum with ⟨calls2, logs2, r⟩
  rw [hfl] at hcalls hf
  simp only at hcalls hf
  obtain ⟨hr, hc, hl2⟩ := hf
  subst hr
  have hsnd : xs.enum.map (fun p =>
      ({ streamName := s, data := Json.dumps p.2, partitionKey := "default" } :
        PutRecordCall)) =
      xs.map (fun c =>
        { streamName := s, data := Json.dumps c, partitionKey := "default" }) := by
    rw [show (fun p : Nat × Json =>
        ({ streamName := s, data := Json.dumps p.2, partitionKey := "default" } :
          PutRecordCall)) =
        (fun c : Json =>
          ({ streamName := s, data := Json.dumps c, partitionKey := "default" } :
            PutRecordCall)) ∘ Prod.snd from rfl]
    rw [← List.map_map, List.enum_map_snd]
  simp [consumerCall, hdec, hfl, hcalls, hsnd]

/-- C4 witness: a two-entry batch produces two decoded records in order and
two publish calls. -/
theorem C4_witness :
    decodeChanges loadsTwoChanges "p" =
      .ok [Json.obj [("kind", Json.str "insert")],
           Json.obj [("kind", Json.str "delete")]] ∧
    (consumerCall loadsTwoChanges publishAlwaysOk "repl"
      { payload := "p", data_start := 1 }).calls.length = 2 := by
  have h := C4_decode_order_single_publish loadsTwoChanges publishAlwaysOk "repl"
    { payload := "p", data_start := 1 }
    (Json.obj [("change",
      .arr [.obj [("kind", .str "insert")], .obj [("kind", .str "delete")]])])
    [Json.obj [("kind", Json.str "insert")], Json.obj [("kind", Json.str "delete")]]
    rfl rfl (fun _ => rfl)
  refine ⟨h.1, ?_⟩
  rw [h.2.2]
  rfl

/-- C5 (counterexample): a record whose publish raises a transient
throttling `ClientError` is attempted exactly once: there is no retry, no
backoff and no retry configuration anywhere in the code; the record is
immediately logged as failed and the batch is acknowledged anyway. -/
theorem C5_counterexample :
    (consumerCall loadsOneChange publishAlwaysThrottled "repl"
      { payload := "p", data_start := 4 }).calls.length = 1 ∧
    (consumerCall loadsOneChange publishAlwaysThrottled "repl"
      { payload := "p", data_start := 4 }).logs =
        [⟨.recordError, "ProvisionedThroughputExceededException"⟩] ∧
    (consumerCall loadsOneChange publishAlwaysThrottled "repl"
      { payload := "p", data_start := 4 }).feedback = some 4 :=
  ⟨rfl, rfl, rfl⟩

/-- C5 (amended): on a classified transient transport error the relay
performs no retry at all: each record gets exactly one publish attempt,
each failed record is immediately logged as dropped, and processing
continues through the whole batch, which is then acknowledged. -/
theorem C5_no_retry (loads : String → Except PyError Json)
    (publish : PutRecordCall → Except PyError String) (s : String) (msg : Msg)
    (items : List Json) (hd : decodeChanges loads msg.payload = .ok items)
    (hp : ∀ c, ∃ d, publish c = .error (.clientError d)) :
    (consumerCall loads publish s msg).calls.length = items.length ∧
    (consumerCall loads publish s msg).logs.length = items.length ∧
    ((consumerCall loads publish s msg).logs.all
      (fun ev => ev.site == .recordError)) = true ∧
    (consumerCall loads publish s msg).feedback = some msg.data_start := by
  have hf := forwardLoop_allClientError publish s items.enum hp
  rcases hfl : forwardLoop publish s items.enum with ⟨calls2, logs2, r⟩
  rw [hfl] at hf
  simp only at hf
  obtain ⟨hr, hc, hl, ha⟩ := hf
  subst hr
  simp [consumerCall, hd, hfl, hc, hl, ha, List.enum_length]

/-- C5 witness: the amended statement instantiated on a one-record batch
with a throttling publisher. -/
theorem C5_witness :
    (consumerCall loadsOneChange publishAlwaysThrottled "repl"
      { payload := "p", data_start := 8 }).calls.length = 1 ∧
    (consumerCall loadsOneChange publishAlwaysThrottled "repl"
      { payload := "p", data_start := 8 }).feedback = some 8 := by
  have h := C5_no_retry loadsOneChange publishAlwaysThrottled "repl"
    { payload := "p", data_start := 8 }
    [Json.obj [("kind", .str "insert"), ("table", .str "users")]]
    rfl (fun _ => ⟨"ProvisionedThroughputExceededException", rfl⟩)
  exact ⟨h.1, h.2.2.2⟩

/-- C6 (counterexample): with streaming started and `consume_stream`
raising a fatal connection loss, teardown runs and the remediation is
logged, but the module-level bare `except:` swallows the error and the
process exits with code 0, not a non-zero code. -/
theorem C6_counterexample :
    opsFatalConsume.consume =
      .error (.otherError "server closed the connection unexpectedly") ∧
    (runMain "cdc_slot" opsFatalConsume).exitCode = 0 :=
  ⟨rfl, rfl⟩

/-- C6 (amended): on a fatal error raised during streaming the loop
terminates and the handler closes the cursor and the connection and logs
the operator message naming the slot and the exact drop-slot command, but
the exception is swallowed by the module-level bare `except:`, so the
process exits with code 0 — the same exit code as a graceful end of the
stream. -/
theorem C6_fatal_teardown_exit_zero (slot : String) (ops : SessionOps) (e : PyError)
    (h1 : ops.startSlot "wal2json" = .ok ())
    (hc : ops.consume = .error e) :
    (runMain slot ops).cursorClosed = true ∧
    (runMain slot ops).connClosed = true ∧
    LogEvent.mk .slotRemediation (remediationMsg slot) ∈ (runMain slot ops).logs ∧
    (runMain slot ops).exitCode = 0 := by
  simp [runMain, h1, hc, teardownResult]

/-- C6 witness: the amended statement instantiated on a connection-loss
failure of `consume_stream`. -/
theorem C6_witness :
    (runMain "cdc_slot" opsFatalConsume).cursorClosed = true ∧
    (runMain "cdc_slot" opsFatalConsume).connClosed = true ∧
    LogEvent.mk .slotRemediation (remediationMsg "cdc_slot") ∈
      (runMain "cdc_slot" opsFatalConsume).logs ∧
    (runMain "cdc_slot" opsFatalConsume).exitCode = 0 :=
  C6_fatal_teardown_exit_zero "cdc_slot" opsFatalConsume
    (.otherError "server closed the connection unexpectedly") rfl rfl

/-- C7 (counterexample): with configured slot "cdc_slot", the first start
call targets the hardcoded slot name "wal2json", never the configured
name; and when the create then fails because the slot already exists
(`DuplicateObject`), no retried start happens and streaming never begins —
the "already exists" condition is not treated as success but tears the
process down. -/
theorem C7_counterexample :
    (runMain "cdc_slot" opsSlotRace).sessionCalls =
      [.startReplication "wal2json", .createReplicationSlot "cdc_slot" "wal2json"] ∧
    ¬ SessionCall.startReplication "cdc_slot" ∈
        (runMain "cdc_slot" opsSlotRace).sessionCalls ∧
    ¬ SessionCall.consumeStream ∈ (runMain "cdc_slot" opsSlotRace).sessionCalls ∧
    (runMain "cdc_slot" opsSlotRace).cursorClosed = true :=
  ⟨rfl, by decide, by decide, rfl⟩

/-- C7 (amended): session opening first attempts `start_replication` on
the hardcoded slot name "wal2json"; when that raises a
`ProgrammingError`, the slot with the configured name is created and the
start is retried against the configured name; but an error from the
create (such as "slot already exists") is not caught: no retried start
happens and the teardown handler runs, exiting with code 0. -/
theorem C7_hardcoded_first_start (slot : String) (ops : SessionOps) (e : PyError)
    (h1 : ops.startSlot "wal2json" = .error e)
    (hpe : matchesProgrammingError e = true) :
    (runMain slot ops).sessionCalls.take 2 =
      [.startReplication "wal2json", .createReplicationSlot slot "wal2json"] ∧
    (ops.createSlot slot = .ok () →
      SessionCall.startReplication slot ∈ (runMain slot ops).sessionCalls) ∧
    (∀ e2, ops.createSlot slot = .error e2 →
      (runMain slot ops).sessionCalls =
        [.startReplication "wal2json", .createReplicationSlot slot "wal2json"] ∧
      (runMain slot ops).cursorClosed = true ∧
      (runMain slot ops).exitCode = 0) := by
  refine ⟨?_, ?_, ?_⟩
  · cases hcr : ops.createSlot slot with
    | ok u =>
        cases u
        cases hst : ops.startSlot slot with
        | ok u2 =>
            cases u2
            cases hcons : ops.consume with
            | ok u3 =>
                cases u3
                simp [runMain, h1, hpe, hcr, hst, hcons]
            | error e3 => simp [runMain, h1, hpe, hcr, hst, hcons, teardownResult]
        | error e2 => simp [runMain, h1, hpe, hcr, hst, teardownResult]
    | error e2 => simp [runMain, h1, hpe, hcr, teardownResult]
  · intro hok
    cases hst : ops.startSlot slot with
    | ok u2 =>
        cases u2
        cases hcons : ops.consume with
        | ok u3 =>
            cases u3
            simp [runMain, h1, hpe, hok, hst, hcons]
        | error e3 => simp [runMain, h1, hpe, hok, hst, hcons, teardownResult]
    | error e2 => simp [runMain, h1, hpe, hok, hst, teardownResult]
  · intro e2 h2
    simp [runMain, h1, hpe, h2, teardownResult]

/-- C7 witness: the amended statement instantiated on the
slot-already-exists race. -/
theorem C7_witness :
    (runMain "cdc_slot" opsSlotRace).sessionCalls.take 2 =
      [.startReplication "wal2json", .createReplicationSlot "cdc_slot" "wal2json"] ∧
    (runMain "cdc_slot" opsSlotRace).exitCode = 0 := by
  have h := C7_hardcoded_first_start "cdc_slot" opsSlotRace
    (.programmingError "replication slot does not exist") rfl rfl
  exact ⟨h.1, (h.2.2 (.duplicateObject "replication slot already exists") rfl).2.2⟩

/-- C8: for any delivered batch sequence with non-decreasing start
positions, the acknowledged positions never decrease; moreover every
acknowledgement a fully-processed batch sends is exactly that batch's
start position. -/
theorem C8_checkpoint_monotonic (loads : String → Except PyError Json)
    (publish : PutRecordCall → Except PyError String) (s : String)
    (msgs : List Msg)
    (h : List.Sorted (· ≤ ·) (msgs.map Msg.data_start)) :
    List.Sorted (· ≤ ·) (relayAcks loads publish s msgs) ∧
    ∀ m : Msg, ∀ l : Nat,
      (consumerCall loads publish s m).feedback = some l → l = m.data_start := by
  constructor
  · exact List.Pairwise.sublist (relayAcks_sublist loads publish s msgs) h
  · intro m l hf
    rcases consumerCall_feedback_cases loads publish s m with h2 | h2
    · rw [h2] at hf
      cases hf
    · rw [h2] at hf
      injection hf with h3
      exact h3.symm

/-- C8 witness: two batches with increasing start positions produce a
non-decreasing acknowledgement sequence. -/
theorem C8_witness :
    List.Sorted (· ≤ ·)
      (relayAcks loadsEmptyChange publishAlwaysOk "repl"
        [{ payload := "a", data_start := 1 }, { payload := "b", data_start := 2 }]) := by
  have h := C8_checkpoint_monotonic loadsEmptyChange publishAlwaysOk "repl"
    [{ payload := "a", data_start := 1 }, { payload := "b", data_start := 2 }]
    (by decide)
  exact h.1

/-- C9: every `put_record` call of any batch carries the fixed partition
key "default", a constant not derived from the record's content. -/
theorem C9_fixed_partition_key (loads : String → Except PyError Json)
    (publish : PutRecordCall → Except PyError String) (s : String) (msg : Msg) :
    ((consumerCall loads publish s msg).calls.all
      (fun c => c.partitionKey == "default")) = true := by
  cases hd : decodeChanges loads msg.payload with
  | error e => simp [consumerCall, hd, outerHandler_base]
  | ok items =>
      have hk := forwardLoop_keys publish s items.enum
      rcases hfl : forwardLoop publish s items.enum with ⟨calls2, logs2, r⟩
      rw [hfl] at hk
      simp only at hk
      cases r with
      | none => simpa [consumerCall, hd, hfl] using hk
      | some e => simpa [consumerCall, hd, hfl, outerHandler_base] using hk

/-- C10: the bare `except:` clause after `except BaseException` is dead
code: handler dispatch always selects the `BaseException` clause (every
raisable exception matches it), and on no input does the consumer emit the
bare branch's log event. -/
theorem C10_bare_except_unreachable (loads : String → Except PyError Json)
    (publish : PutRecordCall → Except PyError String) (s : String) (msg : Msg) :
    (∀ e : PyError, outerHandlerFor e = .baseExceptionH) ∧
    ((consumerCall loads publish s msg).logs.all
      (fun ev => !(ev.site == .bareBatchFailure))) = true := by
  refine ⟨outerHandler_base, ?_⟩
  have himp : ∀ ls : List LogEvent,
      (ls.all (fun ev => ev.site == .sentOk || ev.site == .recordError)) = true →
      (ls.all (fun ev => !(ev.site == .bareBatchFailure))) = true := by
    intro ls hls
    rw [List.all_eq_true] at hls ⊢
    intro ev hev
    have h2 := hls ev hev
    cases hsite : ev.site <;> simp_all
  cases hd : decodeChanges loads msg.payload with
  | error e => simp [consumerCall, hd, outerHandler_base]
  | ok items =>
      have hs2 := forwardLoop_sites publish s items.enum
      rcases hfl : forwardLoop publish s items.enum with ⟨calls2, logs2, r⟩
      rw [hfl] at hs2
      simp only at hs2
      have h2 := himp logs2 hs2
      cases r with
      | none => simpa [consumerCall, hd, hfl] using h2
      | some e =>
          simp [consumerCall, hd, hfl, outerHandler_base, List.all_append, h2]
